import Mathlib

/-!
Shallow embedding of `genblastA_to_gff3.py`: a line-by-line parser for
genblastA output (`parse_genblastA`), a threshold-filtering GFF3 emitter
(`write_gff_line`), and the module-level driver loop.

Python strings are modelled as `List Char`, Python `int` results as `Nat`
(all converted groups match `\d+`), Python `float` results as `ℚ`, and
Python `dict` as an insertion-ordered association list.  Exceptions that
can escape a function are modelled with `Except String`.
-/

namespace GenblastA

/-- The characters Python's `str.split()` / `str.rstrip()` treat as
whitespace (the ASCII ones; the input format is ASCII). -/
def pyIsSpace (c : Char) : Bool :=
  c == ' ' || c == '\t' || c == '\n' || c == '\r' || c == '\x0b' || c == '\x0c'

/-- Python `line.split()`: split on runs of whitespace, dropping empty
fields. -/
def pySplit (s : List Char) : List (List Char) :=
  (List.splitOnP pyIsSpace s).filter (fun f => !f.isEmpty)

/-- Python `line.rstrip()`: remove trailing whitespace. -/
def rstrip (s : List Char) : List Char :=
  (s.reverse.dropWhile pyIsSpace).reverse

/-- Python `int(s)` for a string of decimal digits (every group this is
applied to matches `\d+`). -/
def pyInt (s : List Char) : Nat :=
  s.foldl (fun a c => a * 10 + (c.toNat - 48)) 0

/-- Python `float(s)` for a string drawn from the character class `[\d.]+`:
it succeeds exactly when the string has at least one digit and at most one
dot, and raises `ValueError` (here: `none`) otherwise, e.g. on `1.2.3`
or `.`. -/
def pyFloat (s : List Char) : Option ℚ :=
  if s.any Char.isDigit && s.all (fun c => c.isDigit || c == '.') && s.count '.' ≤ 1 then
    let intPart := s.takeWhile (fun c => c != '.')
    let rest := s.dropWhile (fun c => c != '.')
    match rest with
    | [] => some (pyInt intPart : ℚ)
    | _ :: frac => some ((pyInt intPart : ℚ) + (pyInt frac : ℚ) / (10 ^ frac.length : ℚ))
  else none

/-- `'//*****************START'` (17 asterisks). -/
def START_STR : List Char := "//*****************START".toList

/-- `'//******************END'` (18 asterisks). -/
def END_STR : List Char := "//******************END".toList

/-- `'//for query: '`. -/
def QUERY_NAME_STR : List Char := "//for query: ".toList

/-- `'HSP_ID'`. -/
def HSP_STR : List Char := "HSP_ID".toList

/-- The literal substring `'gene cover'` tested with Python's `in`. -/
def GENE_COVER_STR : List Char := "gene cover".toList

/-- Python `sub in line` (substring containment). -/
def hasSubstr (pat : List Char) : List Char → Bool
  | [] => List.isPrefixOf pat []
  | c :: rest => List.isPrefixOf pat (c :: rest) || hasSubstr pat rest

/-- The capture groups of `GENOMIC_MATCH_RE`, kept as raw strings exactly
as a Python `re.Match` object does. -/
structure GenomicMatchGroups where
  query_name : List Char
  match_name : List Char
  match_start : List Char
  match_end : List Char
  strand : List Char
  coverage_num : List Char
  coverage_perc : List Char
  score : List Char
  rank : List Char
  deriving DecidableEq, Repr

/-- The capture groups of `HSP_RE`, as raw strings. -/
structure HspGroups where
  hsp_id : List Char
  match_start : List Char
  match_end : List Char
  query_start : List Char
  query_end : List Char
  perc_id : List Char
  deriving DecidableEq, Repr

/-- Greedy character-class scan: the longest prefix all of whose characters
satisfy `p`, together with the rest.  Because in both regexes every
character class excludes the character that follows it, greedy scanning
with no backtracking is exactly the regex's semantics. -/
def scanClass (p : Char → Bool) (s : List Char) : List Char × List Char :=
  (s.takeWhile p, s.dropWhile p)

/-- Like `scanClass` but requires at least one character (`+` instead
of `*`). -/
def scanClass1 (p : Char → Bool) (s : List Char) : Option (List Char × List Char) :=
  let t := s.takeWhile p
  if t.isEmpty then none else some (t, s.dropWhile p)

/-- Consume an exact literal. -/
def lit (pat s : List Char) : Option (List Char) :=
  if List.isPrefixOf pat s then some (s.drop pat.length) else none

/-- `GENOMIC_MATCH_RE.match(s)` where the pattern is
`^(?P<query_name>[^|]*)\|(?P<match_name>[^:]*):(?P<match_start>\d+)\.\.(?P<match_end>\d+)\|(?P<strand>[+-])\|gene cover:(?P<coverage_num>\d+)\((?P<coverage_perc>[\d.]+)%\)\|score:(?P<score>[-\d.]+)\|rank:(?P<rank>\d+)$`.
Applied by the source to `line.rstrip()`. -/
def GENOMIC_MATCH_RE (s0 : List Char) : Option GenomicMatchGroups :=
  match scanClass (fun c => c != '|') s0 with
  | (qn, s1) =>
  match lit ['|'] s1 with
  | none => none
  | some s2 =>
  match scanClass (fun c => c != ':') s2 with
  | (mn, s3) =>
  match lit [':'] s3 with
  | none => none
  | some s4 =>
  match scanClass1 Char.isDigit s4 with
  | none => none
  | some (ms, s5) =>
  match lit ['.', '.'] s5 with
  | none => none
  | some s6 =>
  match scanClass1 Char.isDigit s6 with
  | none => none
  | some (me, s7) =>
  match lit ['|'] s7 with
  | none => none
  | some s8 =>
  match scanClass1 (fun c => c == '+' || c == '-') s8 with
  | none => none
  | some (st, s9) =>
  if st.length != 1 then none else
  match lit ("|gene cover:".toList) s9 with
  | none => none
  | some s10 =>
  match scanClass1 Char.isDigit s10 with
  | none => none
  | some (cn, s11) =>
  match lit ['('] s11 with
  | none => none
  | some s12 =>
  match scanClass1 (fun c => c.isDigit || c == '.') s12 with
  | none => none
  | some (cp, s13) =>
  match lit ['%', ')'] s13 with
  | none => none
  | some s14 =>
  match lit ("|score:".toList) s14 with
  | none => none
  | some s15 =>
  match scanClass1 (fun c => c.isDigit || c == '.' || c == '-') s15 with
  | none => none
  | some (sc, s16) =>
  match lit ("|rank:".toList) s16 with
  | none => none
  | some s17 =>
  match scanClass1 Char.isDigit s17 with
  | none => none
  | some (rk, s18) =>
  if s18.isEmpty then some ⟨qn, mn, ms, me, st, cn, cp, sc, rk⟩ else none

/-- `HSP_RE.match(s)` where the pattern is
`^HSP_ID\[(?P<hsp_id>\d+)\]:\((?P<match_start>\d+)-(?P<match_end>\d+)\);query:\((?P<query_start>\d+)-(?P<query_end>\d+)\); pid: (?P<perc_id>[\d.]+)$`.
Applied by the source to `line.rstrip()`. -/
def HSP_RE (s0 : List Char) : Option HspGroups :=
  match lit ("HSP_ID[".toList) s0 with
  | none => none
  | some s1 =>
  match scanClass1 Char.isDigit s1 with
  | none => none
  | some (hid, s2) =>
  match lit ("]:(".toList) s2 with
  | none => none
  | some s3 =>
  match scanClass1 Char.isDigit s3 with
  | none => none
  | some (ms, s4) =>
  match lit ['-'] s4 with
  | none => none
  | some s5 =>
  match scanClass1 Char.isDigit s5 with
  | none => none
  | some (me, s6) =>
  match lit (");query:(".toList) s6 with
  | none => none
  | some s7 =>
  match scanClass1 Char.isDigit s7 with
  | none => none
  | some (qs, s8) =>
  match lit ['-'] s8 with
  | none => none
  | some s9 =>
  match scanClass1 Char.isDigit s9 with
  | none => none
  | some (qe, s10) =>
  match lit ("); pid: ".toList) s10 with
  | none => none
  | some s11 =>
  match scanClass1 (fun c => c.isDigit || c == '.') s11 with
  | none => none
  | some (pid, s12) =>
  if s12.isEmpty then some ⟨hid, ms, me, qs, qe, pid⟩ else none

/-- One HSP entry as stored in `hsp_dict` (coordinates via `int(...)`,
`perc_id` via `float(...)`). -/
structure Hsp where
  match_start : Nat
  match_end : Nat
  query_start : Nat
  query_end : Nat
  perc_id : ℚ
  deriving DecidableEq, Repr

/-- A Python `dict` keyed by `int`, as an insertion-ordered association
list: assignment to an existing key overwrites in place, a new key is
appended. -/
def dictInsert (d : List (Nat × Hsp)) (k : Nat) (v : Hsp) : List (Nat × Hsp) :=
  if d.any (fun p => p.1 == k) then
    d.map (fun p => if p.1 == k then (k, v) else p)
  else d ++ [(k, v)]

/-- The dict yielded by the generator: `dict(match=genomic_match,
hsps=hsp_dict)`.  Note it carries no `query_name` field. -/
structure ParsedRecord where
  match_ : GenomicMatchGroups
  hsps : List (Nat × Hsp)
  deriving DecidableEq, Repr

/-- The mutable variables of `parse_genblastA`. -/
structure ParserState where
  in_record : Bool
  hsp_dict : List (Nat × Hsp)
  genomic_match : Option GenomicMatchGroups
  query_name : List Char
  deriving DecidableEq, Repr

/-- Initial values: `in_record = False`, `hsp_dict = dict()`,
`genomic_match = None`, `query_name = ''`. -/
def initState : ParserState := ⟨false, [], none, []⟩

instance : DecidableEq (Except String ParserState) := fun a b =>
  match a, b with
  | .error x, .error y =>
    decidable_of_iff (x = y) ⟨fun h => by rw [h], fun h => by cases h; rfl⟩
  | .ok x, .ok y =>
    decidable_of_iff (x = y) ⟨fun h => by rw [h], fun h => by cases h; rfl⟩
  | .error _, .ok _ => isFalse (fun h => by cases h)
  | .ok _, .error _ => isFalse (fun h => by cases h)

/-- The body of `parse_genblastA`'s `for` loop on one line: returns the
updated state and the records yielded at this step, or an exception
(only `float(match.group('perc_id'))` can raise, with `ValueError`). -/
def stepLine (st : ParserState) (line : List Char) :
    Except String (ParserState × List ParsedRecord) :=
  if !st.in_record then
    if List.isPrefixOf START_STR line then .ok ({ st with in_record := true }, [])
    else .ok (st, [])
  else
    if List.isPrefixOf END_STR line then
      let out := match st.genomic_match with
        | some gm => [⟨gm, st.hsp_dict⟩]
        | none => []
      .ok (⟨false, [], none, []⟩, out)
    else if List.isPrefixOf QUERY_NAME_STR line then
      if (pySplit line).length != 4 then .ok ({ st with in_record := false }, [])
      else .ok ({ st with query_name := (pySplit line).getD 2 [] }, [])
    else if hasSubstr GENE_COVER_STR line then
      let (out, st1) : List ParsedRecord × ParserState :=
        match st.genomic_match with
        | some gm => ([⟨gm, st.hsp_dict⟩], { st with hsp_dict := [] })
        | none => ([], st)
      match GENOMIC_MATCH_RE (rstrip line) with
      | none => .ok ({ st1 with genomic_match := none, in_record := false }, out)
      | some gm => .ok ({ st1 with genomic_match := some gm }, out)
    else if List.isPrefixOf HSP_STR line then
      match HSP_RE (rstrip line) with
      | none => .ok ({ st with in_record := false }, [])
      | some g =>
        match pyFloat g.perc_id with
        | none => .error "ValueError: could not convert string to float"
        | some pid =>
          let hsp : Hsp := ⟨pyInt g.match_start, pyInt g.match_end,
            pyInt g.query_start, pyInt g.query_end, pid⟩
          .ok ({ st with hsp_dict := dictInsert st.hsp_dict (pyInt g.hsp_id) hsp }, [])
    else .ok (st, [])

/-- Run the loop over the remaining lines from a given state, collecting
yielded records.  A raised exception ends the run; records yielded before
it stand (the generator's consumer has already received them). -/
def runLines (st : ParserState) : List (List Char) →
    List ParsedRecord × Except String ParserState
  | [] => ([], .ok st)
  | l :: ls =>
    match stepLine st l with
    | .error e => ([], .error e)
    | .ok (st1, recs) =>
      let (rest, r) := runLines st1 ls
      (recs ++ rest, r)

/-- `parse_genblastA(input)`: the yielded records and the final outcome
(final state, or the exception that escaped). -/
def parse_genblastA (lines : List (List Char)) :
    List ParsedRecord × Except String ParserState :=
  runLines initState lines

/-- Just the records yielded (before any exception). -/
def parse_records (lines : List (List Char)) : List ParsedRecord :=
  (parse_genblastA lines).1

/-- The three threshold arguments (`--min_perc_identity`,
`--min_perc_coverage`, `--min_match_length`). -/
structure Thresholds where
  min_perc_identity : ℚ
  min_perc_coverage : ℚ
  min_match_length : ℤ
  deriving DecidableEq, Repr

/-- The GFF3 feature line assembled by `write_gff_line` when the filter
passes: `'\t'.join([...]) + '\n'` with all coordinate/score fields kept
as their original captured text. -/
def gffLineText (gm : GenomicMatchGroups) (query_name : List Char) : List Char :=
  List.intercalate ['\t']
    [gm.match_name, "BLAST".toList, "match".toList, gm.match_start, gm.match_end,
     gm.score, gm.strand, ['.'],
     "ID=".toList ++ query_name ++ ['_'] ++ gm.rank] ++ ['\n']

/-- `write_gff_line(genomic_match, hsp_dict, query_name, output_file)`:
returns the line written (`some`), `none` when the filter rejects, or the
exception raised.  `sum(...)/num_hsps` raises `ZeroDivisionError` when the
dict is empty (computed before `float(coverage_perc)`, which itself can
raise `ValueError`). -/
def write_gff_line (gm : GenomicMatchGroups) (hsp_dict : List (Nat × Hsp))
    (query_name : List Char) (th : Thresholds) :
    Except String (Option (List Char)) :=
  let num_hsps := hsp_dict.length
  let match_length : ℤ := |(pyInt gm.match_end : ℤ) - (pyInt gm.match_start : ℤ)|
  if num_hsps = 0 then .error "ZeroDivisionError: division by zero"
  else
    let avg_perc_identity : ℚ := (hsp_dict.map (fun p => p.2.perc_id)).sum / num_hsps
    match pyFloat gm.coverage_perc with
    | none => .error "ValueError: could not convert string to float"
    | some query_coverage_perc =>
      if th.min_perc_identity ≤ avg_perc_identity ∧
         th.min_perc_coverage ≤ query_coverage_perc ∧
         th.min_match_length ≤ match_length then
        .ok (some (gffLineText gm query_name))
      else .ok none

/-- The module-level driver loop: for each yielded record call
`write_gff_line(match['match'], match['hsps'],
match['match'].group('query_name'), gff_file)`.  An exception from the
emitter kills the program; lines already written stand. -/
def driver_loop (records : List ParsedRecord) (th : Thresholds) : List (List Char) :=
  match records with
  | [] => []
  | r :: rs =>
    match write_gff_line r.match_ r.hsps r.match_.query_name th with
    | .error _ => []
    | .ok none => driver_loop rs th
    | .ok (some l) => l :: driver_loop rs th

/-- The whole pipeline's GFF3 feature lines (excluding the constant
header): parse, then emit each yielded record until the program ends or
dies.  A parser exception also kills the program, so exactly the records
yielded before it are emitted. -/
def gffLines (lines : List (List Char)) (th : Thresholds) : List (List Char) :=
  driver_loop (parse_records lines) th

/-- The `(hsp_id, Hsp)` entry that an HSP line contributes when it both
matches `HSP_RE` and has a `float`-convertible `perc_id`. -/
def hspEntryOf (l : List Char) : Option (Nat × Hsp) :=
  match HSP_RE (rstrip l) with
  | none => none
  | some g =>
    match pyFloat g.perc_id with
    | none => none
    | some pid =>
      some (pyInt g.hsp_id,
        ⟨pyInt g.match_start, pyInt g.match_end, pyInt g.query_start, pyInt g.query_end, pid⟩)

/-- Inside a block, line `l` is routed to the gene-cover branch and its
pattern succeeds with groups `G`. -/
def isGcLineFor (l : List Char) (G : GenomicMatchGroups) : Prop :=
  List.isPrefixOf END_STR l = false ∧ List.isPrefixOf QUERY_NAME_STR l = false ∧
  hasSubstr GENE_COVER_STR l = true ∧ GENOMIC_MATCH_RE (rstrip l) = some G

/-- Inside a block, line `l` is routed to the HSP branch and contributes
the entry `(k, h)`. -/
def isHspLineFor (l : List Char) (k : Nat) (h : Hsp) : Prop :=
  List.isPrefixOf END_STR l = false ∧ List.isPrefixOf QUERY_NAME_STR l = false ∧
  hasSubstr GENE_COVER_STR l = false ∧ List.isPrefixOf HSP_STR l = true ∧
  hspEntryOf l = some (k, h)

instance (l : List Char) (G : GenomicMatchGroups) : Decidable (isGcLineFor l G) := by
  unfold isGcLineFor; infer_instance

instance (l : List Char) (k : Nat) (h : Hsp) : Decidable (isHspLineFor l k h) := by
  unfold isHspLineFor; infer_instance

lemma stepLine_start (st : ParserState) (h : st.in_record = false) :
    stepLine st START_STR = .ok ({ st with in_record := true }, []) := by
  simp [stepLine, h, show List.isPrefixOf START_STR START_STR = true from by decide]

lemma stepLine_endMarker (st : ParserState) (h : st.in_record = true) :
    stepLine st END_STR =
      .ok (initState,
        match st.genomic_match with
        | some gm => [⟨gm, st.hsp_dict⟩]
        | none => []) := by
  simp [stepLine, h, initState, show List.isPrefixOf END_STR END_STR = true from by decide]

lemma stepLine_gc_none (st : ParserState) (l : List Char) (G : GenomicMatchGroups)
    (h : st.in_record = true) (hm : st.genomic_match = none) (hl : isGcLineFor l G) :
    stepLine st l = .ok ({ st with genomic_match := some G }, []) := by
  obtain ⟨h1, h2, h3, h4⟩ := hl
  simp [stepLine, h, h1, h2, h3, h4, hm]

lemma stepLine_gc_some (st : ParserState) (l : List Char) (G gm : GenomicMatchGroups)
    (h : st.in_record = true) (hm : st.genomic_match = some gm) (hl : isGcLineFor l G) :
    stepLine st l =
      .ok ({ st with hsp_dict := [], genomic_match := some G }, [⟨gm, st.hsp_dict⟩]) := by
  obtain ⟨h1, h2, h3, h4⟩ := hl
  simp [stepLine, h, h1, h2, h3, h4, hm]

lemma stepLine_hsp (st : ParserState) (l : List Char) (k : Nat) (hp : Hsp)
    (h : st.in_record = true) (hl : isHspLineFor l k hp) :
    stepLine st l = .ok ({ st with hsp_dict := dictInsert st.hsp_dict k hp }, []) := by
  obtain ⟨h1, h2, h3, h4, h5⟩ := hl
  unfold hspEntryOf at h5
  rcases hre : HSP_RE (rstrip l) with _ | g
  · rw [hre] at h5; simp at h5
  · rw [hre] at h5
    simp only [] at h5
    rcases hpf : pyFloat g.perc_id with _ | pid
    · rw [hpf] at h5; simp at h5
    · rw [hpf] at h5
      simp only [Option.some.injEq, Prod.mk.injEq] at h5
      obtain ⟨hk, hh⟩ := h5
      simp [stepLine, h, h1, h2, h3, h4, hre, hpf, hk, hh]

lemma stepLine_ignored (st : ParserState) (l : List Char)
    (h : st.in_record = true)
    (h1 : List.isPrefixOf END_STR l = false) (h2 : List.isPrefixOf QUERY_NAME_STR l = false)
    (h3 : hasSubstr GENE_COVER_STR l = false) (h4 : List.isPrefixOf HSP_STR l = false) :
    stepLine st l = .ok (st, []) := by
  simp [stepLine, h, h1, h2, h3, h4]

lemma runLines_cons (st : ParserState) (l : List Char) (ls : List (List Char))
    (st1 : ParserState) (recs : List ParsedRecord)
    (h : stepLine st l = .ok (st1, recs)) :
    runLines st (l :: ls) = (recs ++ (runLines st1 ls).1, (runLines st1 ls).2) := by
  simp [runLines, h]

lemma runLines_append (xs ys : List (List Char)) (st st1 : ParserState)
    (h : (runLines st xs).2 = .ok st1) :
    runLines st (xs ++ ys) =
      ((runLines st xs).1 ++ (runLines st1 ys).1, (runLines st1 ys).2) := by
  induction xs generalizing st with
  | nil =>
    simp [runLines] at h
    simp [runLines, h]
  | cons l ls ih =>
    rcases hs : stepLine st l with e | ⟨st2, recs⟩
    · rw [runLines, hs] at h
      simp at h
    · rw [runLines, hs] at h
      simp at h
      rw [List.cons_append, runLines_cons st l (ls ++ ys) st2 recs hs,
        runLines_cons st l ls st2 recs hs, ih st2 h]
      simp

lemma dictInsert_fresh (d : List (Nat × Hsp)) (k : Nat) (v : Hsp)
    (h : ∀ p ∈ d, p.1 ≠ k) : dictInsert d k v = d ++ [(k, v)] := by
  unfold dictInsert
  have : d.any (fun p => p.1 == k) = false := by
    simp only [List.any_eq_false]
    intro p hp
    simp [h p hp]
  simp [this]

lemma foldl_dictInsert_fresh (es d : List (Nat × Hsp))
    (hnd : (es.map Prod.fst).Nodup)
    (hdisj : ∀ p ∈ es, ∀ q ∈ d, q.1 ≠ p.1) :
    es.foldl (fun dd t => dictInsert dd t.1 t.2) d = d ++ es := by
  induction es generalizing d with
  | nil => simp
  | cons e rest ih =>
    simp only [List.foldl_cons]
    rw [dictInsert_fresh d e.1 e.2 (fun p hp => hdisj e (by simp) p hp)]
    rw [ih (d ++ [(e.1, e.2)])]
    · simp
    · simp only [List.map_cons, List.nodup_cons] at hnd
      exact hnd.2
    · intro p hp q hq
      rcases List.mem_append.mp hq with hq | hq
      · exact hdisj p (by simp [hp]) q hq
      · simp only [List.mem_singleton] at hq
        subst hq
        simp only [List.map_cons, List.nodup_cons] at hnd
        intro hc
        exact hnd.1 (hc ▸ List.mem_map_of_mem Prod.fst hp)

/-- Running the loop over a run of HSP lines from inside a block: the
entries accumulate into `hsp_dict` (via Python dict assignment) and
nothing is yielded; the active match and query name are untouched. -/
lemma runLines_hsps (hl : List (List Char × Nat × Hsp)) (d : List (Nat × Hsp))
    (m : Option GenomicMatchGroups) (q : List Char) (rest : List (List Char))
    (hh : ∀ t ∈ hl, isHspLineFor t.1 t.2.1 t.2.2) :
    runLines ⟨true, d, m, q⟩ (hl.map (fun t => t.1) ++ rest) =
      runLines ⟨true, hl.foldl (fun dd t => dictInsert dd t.2.1 t.2.2) d, m, q⟩ rest := by
  induction hl generalizing d with
  | nil => simp
  | cons t ts ih =>
    have hstep := stepLine_hsp ⟨true, d, m, q⟩ t.1 t.2.1 t.2.2 rfl (hh t (by simp))
    simp only [List.map_cons, List.cons_append]
    rw [runLines_cons _ _ _ _ _ hstep]
    simp only [List.foldl_cons]
    rw [ih (dictInsert d t.2.1 t.2.2) (fun x hx => hh x (by simp [hx]))]
    simp

/-- One gene-cover line plus the HSP lines that follow it, together with
the values the source parses out of them. -/
structure GcGroup where
  gcLine : List Char
  gm : GenomicMatchGroups
  hspLines : List (List Char × Nat × Hsp)
  deriving DecidableEq

/-- The input lines of the group, in order. -/
def GcGroup.lines (g : GcGroup) : List (List Char) :=
  g.gcLine :: g.hspLines.map (fun t => t.1)

/-- The `(hsp_id, Hsp)` entries of the group, in input order. -/
def GcGroup.entries (g : GcGroup) : List (Nat × Hsp) :=
  g.hspLines.map (fun t => (t.2.1, t.2.2))

/-- The group is well formed: the gene-cover line parses to `gm`, each HSP
line parses to its entry, and the `hsp_id`s are pairwise distinct. -/
def GcGroup.ok (g : GcGroup) : Prop :=
  isGcLineFor g.gcLine g.gm ∧ (∀ t ∈ g.hspLines, isHspLineFor t.1 t.2.1 t.2.2) ∧
  (g.entries.map Prod.fst).Nodup

instance (g : GcGroup) : Decidable g.ok := by
  unfold GcGroup.ok; infer_instance

lemma foldl_entries (g : GcGroup) (d : List (Nat × Hsp))
    (hnd : (g.entries.map Prod.fst).Nodup)
    (hdisj : ∀ p ∈ g.entries, ∀ q ∈ d, q.1 ≠ p.1) :
    g.hspLines.foldl (fun dd t => dictInsert dd t.2.1 t.2.2) d = d ++ g.entries := by
  have : g.hspLines.foldl (fun dd t => dictInsert dd t.2.1 t.2.2) d =
      g.entries.foldl (fun dd t => dictInsert dd t.1 t.2) d := by
    unfold GcGroup.entries
    rw [List.foldl_map]
  rw [this, foldl_dictInsert_fresh g.entries d hnd hdisj]

/-- Running the loop from inside a block with an active match `G` and dict
`d` over a list of well-formed gene-cover groups followed by the end
marker: the active match is finalized by the first boundary, and each
group produces exactly its own record. -/
lemma runLines_groups (gs : List GcGroup) (G : GenomicMatchGroups)
    (d : List (Nat × Hsp)) (q : List Char)
    (hgs : ∀ g ∈ gs, g.ok) :
    runLines ⟨true, d, some G, q⟩ (gs.flatMap GcGroup.lines ++ [END_STR]) =
      ((⟨G, d⟩ : ParsedRecord) :: gs.map (fun g => ⟨g.gm, g.entries⟩), .ok initState) := by
  induction gs generalizing G d with
  | nil =>
    have hstep := stepLine_endMarker ⟨true, d, some G, q⟩ rfl
    simp only [List.flatMap_nil, List.nil_append]
    rw [runLines_cons _ _ _ _ _ hstep]
    simp [runLines]
  | cons g rest ih =>
    have hok := hgs g (by simp)
    obtain ⟨hgc, hhsp, hnd⟩ := hok
    have hstep := stepLine_gc_some ⟨true, d, some G, q⟩ g.gcLine g.gm G rfl rfl hgc
    simp only [List.flatMap_cons, GcGroup.lines, List.cons_append, List.append_assoc]
    rw [runLines_cons _ _ _ _ _ hstep]
    rw [runLines_hsps g.hspLines [] (some g.gm) q _ hhsp]
    rw [foldl_entries g [] hnd (by simp)]
    simp only [List.nil_append]
    rw [ih g.gm g.entries (fun x hx => hgs x (by simp [hx]))]
    simp

/-- Running the loop from inside a block with no active match and dict `d`
over a nonempty list of groups followed by the end marker: the dict `d`
(orphan HSPs seen before the first gene-cover line) merges into the first
group's record. -/
lemma runLines_entered (g : GcGroup) (gs : List GcGroup)
    (d : List (Nat × Hsp)) (q : List Char)
    (hg : g.ok) (hgs : ∀ x ∈ gs, x.ok)
    (hdisj : ∀ p ∈ g.entries, ∀ r ∈ d, r.1 ≠ p.1) :
    runLines ⟨true, d, none, q⟩
        (GcGroup.lines g ++ (gs.flatMap GcGroup.lines ++ [END_STR])) =
      ((⟨g.gm, d ++ g.entries⟩ : ParsedRecord) :: gs.map (fun x => ⟨x.gm, x.entries⟩),
        .ok initState) := by
  obtain ⟨hgc, hhsp, hnd⟩ := hg
  have hstep := stepLine_gc_none ⟨true, d, none, q⟩ g.gcLine g.gm rfl rfl hgc
  simp only [GcGroup.lines, List.cons_append, List.append_assoc]
  rw [runLines_cons _ _ _ _ _ hstep]
  rw [runLines_hsps g.hspLines d (some g.gm) q _ hhsp]
  rw [foldl_entries g d hnd hdisj]
  rw [runLines_groups gs g.gm (d ++ g.entries) q hgs]
  simp

lemma foldl_hspLines (hl : List (List Char × Nat × Hsp)) (d : List (Nat × Hsp))
    (hnd : ((hl.map (fun t => (t.2.1, t.2.2))).map Prod.fst).Nodup)
    (hdisj : ∀ p ∈ hl.map (fun t => (t.2.1, t.2.2)), ∀ r ∈ d, r.1 ≠ p.1) :
    hl.foldl (fun dd t => dictInsert dd t.2.1 t.2.2) d =
      d ++ hl.map (fun t => (t.2.1, t.2.2)) := by
  have : hl.foldl (fun dd t => dictInsert dd t.2.1 t.2.2) d =
      (hl.map (fun t => (t.2.1, t.2.2))).foldl (fun dd t => dictInsert dd t.1 t.2) d := by
    rw [List.foldl_map]
  rw [this, foldl_dictInsert_fresh _ d hnd hdisj]

/-- Claim C4: for a well-formed block (start marker, K ≥ 1 gene-cover
groups each consisting of a valid gene-cover line followed by its valid
HSP lines with distinct hsp_ids, end marker), the parser yields exactly
one ParsedRecord per gene-cover line, in order, and each record's HSP
mapping holds exactly the entries of the HSP lines between its gene-cover
line and the next boundary. -/
theorem c4_records_per_gene_cover (gs : List GcGroup) (hne : gs ≠ [])
    (hgs : ∀ g ∈ gs, g.ok) :
    parse_records (START_STR :: gs.flatMap GcGroup.lines ++ [END_STR]) =
      gs.map (fun g => ⟨g.gm, g.entries⟩) := by
  rcases gs with _ | ⟨g, rest⟩
  · exact absurd rfl hne
  · unfold parse_records parse_genblastA
    have hstep := stepLine_start initState rfl
    rw [List.cons_append, runLines_cons _ _ _ _ _ hstep]
    have : ({ initState with in_record := true } : ParserState) = ⟨true, [], none, []⟩ := rfl
    rw [this]
    rw [List.flatMap_cons, List.append_assoc]
    rw [runLines_entered g rest [] [] (hgs g (by simp))
      (fun x hx => hgs x (by simp [hx])) (by simp)]
    simp

/-- Claim C10: HSP lines appearing inside a block before any gene-cover
line are parsed and retained: they end up in the mapping of the first
record yielded in the block, merged with that record's own HSP lines; and
when no gene-cover line follows, they are silently dropped (no record, and
the end marker resets the working state). -/
theorem c10_leading_hsps_merge (pre : List (List Char × Nat × Hsp)) (g : GcGroup)
    (hpre : ∀ t ∈ pre, isHspLineFor t.1 t.2.1 t.2.2)
    (hg : g.ok)
    (hndpre : ((pre.map (fun t => (t.2.1, t.2.2))).map Prod.fst).Nodup)
    (hdisj : ∀ p ∈ g.entries, ∀ r ∈ pre.map (fun t => (t.2.1, t.2.2)), r.1 ≠ p.1) :
    parse_records (START_STR :: (pre.map (fun t => t.1) ++ (GcGroup.lines g ++ [END_STR]))) =
      [⟨g.gm, pre.map (fun t => (t.2.1, t.2.2)) ++ g.entries⟩] ∧
    parse_genblastA (START_STR :: (pre.map (fun t => t.1) ++ [END_STR])) =
      ([], .ok initState) := by
  constructor
  · unfold parse_records parse_genblastA
    have hstep := stepLine_start initState rfl
    rw [runLines_cons _ _ _ _ _ hstep]
    have h0 : ({ initState with in_record := true } : ParserState) = ⟨true, [], none, []⟩ := rfl
    rw [h0]
    rw [runLines_hsps pre [] none [] _ hpre]
    rw [foldl_hspLines pre [] hndpre (fun p _ r hr => absurd hr (List.not_mem_nil r))]
    simp only [List.nil_append]
    rw [show ([END_STR] : List (List Char)) =
      ([] : List GcGroup).flatMap GcGroup.lines ++ [END_STR] from rfl]
    rw [runLines_entered g [] (pre.map (fun t => (t.2.1, t.2.2))) []
      hg (by simp) hdisj]
    simp
  · unfold parse_genblastA
    have hstep := stepLine_start initState rfl
    rw [runLines_cons _ _ _ _ _ hstep]
    have h0 : ({ initState with in_record := true } : ParserState) = ⟨true, [], none, []⟩ := rfl
    rw [h0]
    rw [runLines_hsps pre [] none [] _ hpre]
    have hend := stepLine_endMarker ⟨true, pre.foldl (fun dd t => dictInsert dd t.2.1 t.2.2) [], none, []⟩ rfl
    rw [runLines_cons _ _ _ _ _ hend]
    simp [runLines]

/-- Claim C6: a block with one valid gene-cover line and no HSP lines,
closed by the end marker, yields exactly one ParsedRecord with an empty
HSP mapping, and the Feature Emitter applied to it raises
ZeroDivisionError (mean over zero HSPs). -/
theorem c6_zero_hsp_block (l : List Char) (G : GenomicMatchGroups)
    (q : List Char) (th : Thresholds) (hl : isGcLineFor l G) :
    parse_records [START_STR, l, END_STR] = [⟨G, []⟩] ∧
    write_gff_line G [] q th = .error "ZeroDivisionError: division by zero" := by
  constructor
  · unfold parse_records parse_genblastA
    have h1 := stepLine_start initState rfl
    rw [runLines_cons _ _ _ _ _ h1]
    have h0 : ({ initState with in_record := true } : ParserState) = ⟨true, [], none, []⟩ := rfl
    rw [h0]
    have h2 := stepLine_gc_none ⟨true, [], none, []⟩ l G rfl rfl hl
    rw [runLines_cons _ _ _ _ _ h2]
    have h3 := stepLine_endMarker ⟨true, [], some G, []⟩ rfl
    rw [runLines_cons _ _ _ _ _ h3]
    simp [runLines]
  · simp [write_gff_line]

/-- Claim C8: if the input ends inside an unclosed block with an active
GenomicMatch, no record is yielded for it: appending an explicit end
marker to the same input yields exactly the records of the original input
plus one final record for the active match, so the original input alone
never contained it. -/
theorem c8_no_emission_at_eof (lines : List (List Char)) (s : ParserState)
    (gm : GenomicMatchGroups)
    (h2 : (parse_genblastA lines).2 = .ok s) (hin : s.in_record = true)
    (hgm : s.genomic_match = some gm) :
    parse_records (lines ++ [END_STR]) = parse_records lines ++ [⟨gm, s.hsp_dict⟩] := by
  unfold parse_records parse_genblastA at *
  rw [runLines_append lines [END_STR] initState s h2]
  have hend := stepLine_endMarker s hin
  rw [runLines_cons _ _ _ _ _ hend]
  simp [runLines, hgm]

/-- Claim C5: for a record with a non-empty HSP mapping (and a
float-convertible coverage field `c`), the Feature Emitter writes exactly
one line iff mean perc_id ≥ min_perc_identity, coverage ≥
min_perc_coverage and |match_end − match_start| ≥ min_match_length (all
inclusive), and that line is the tab-separated GFF3 record with the
original captured text of all fields and attribute
`ID=<query_name>_<rank>`. -/
theorem c5_emitter_filter (gm : GenomicMatchGroups) (hsps : List (Nat × Hsp))
    (q : List Char) (th : Thresholds) (c : ℚ)
    (hne : hsps ≠ []) (hc : pyFloat gm.coverage_perc = some c) :
    (write_gff_line gm hsps q th = .ok (some (gffLineText gm q)) ↔
      (th.min_perc_identity ≤ (hsps.map (fun p => p.2.perc_id)).sum / (hsps.length : ℚ) ∧
       th.min_perc_coverage ≤ c ∧
       th.min_match_length ≤ |(pyInt gm.match_end : ℤ) - (pyInt gm.match_start : ℤ)|)) ∧
    (write_gff_line gm hsps q th = .ok none ↔
      ¬(th.min_perc_identity ≤ (hsps.map (fun p => p.2.perc_id)).sum / (hsps.length : ℚ) ∧
        th.min_perc_coverage ≤ c ∧
        th.min_match_length ≤ |(pyInt gm.match_end : ℤ) - (pyInt gm.match_start : ℤ)|)) := by
  have h0 : hsps.length ≠ 0 := fun h => hne (List.length_eq_zero.mp h)
  unfold write_gff_line
  by_cases hcond : (th.min_perc_identity ≤ (hsps.map (fun p => p.2.perc_id)).sum / (hsps.length : ℚ) ∧
      th.min_perc_coverage ≤ c ∧
      th.min_match_length ≤ |(pyInt gm.match_end : ℤ) - (pyInt gm.match_start : ℤ)|) <;>
    simp [h0, hc, hcond]

lemma write_gff_cases (gm : GenomicMatchGroups) (hsps : List (Nat × Hsp))
    (q : List Char) (t t' : Thresholds)
    (hI : t.min_perc_identity ≤ t'.min_perc_identity)
    (hC : t.min_perc_coverage ≤ t'.min_perc_coverage)
    (hL : t.min_match_length ≤ t'.min_match_length) :
    (∃ e e', write_gff_line gm hsps q t = .error e ∧ write_gff_line gm hsps q t' = .error e') ∨
    (write_gff_line gm hsps q t' = .ok none ∧ ∃ o, write_gff_line gm hsps q t = .ok o) ∨
    (∃ l, write_gff_line gm hsps q t' = .ok (some l) ∧ write_gff_line gm hsps q t = .ok (some l)) := by
  by_cases h0 : hsps.length = 0
  · left
    exact ⟨"ZeroDivisionError: division by zero", "ZeroDivisionError: division by zero",
      by simp [write_gff_line, h0], by simp [write_gff_line, h0]⟩
  · rcases hpf : pyFloat gm.coverage_perc with _ | c
    · left
      exact ⟨"ValueError: could not convert string to float",
        "ValueError: could not convert string to float",
        by simp [write_gff_line, h0, hpf], by simp [write_gff_line, h0, hpf]⟩
    · by_cases hcond' : (t'.min_perc_identity ≤ (hsps.map (fun p => p.2.perc_id)).sum / (hsps.length : ℚ) ∧
          t'.min_perc_coverage ≤ c ∧
          t'.min_match_length ≤ |(pyInt gm.match_end : ℤ) - (pyInt gm.match_start : ℤ)|)
      · right; right
        have hcond : (t.min_perc_identity ≤ (hsps.map (fun p => p.2.perc_id)).sum / (hsps.length : ℚ) ∧
            t.min_perc_coverage ≤ c ∧
            t.min_match_length ≤ |(pyInt gm.match_end : ℤ) - (pyInt gm.match_start : ℤ)|) :=
          ⟨le_trans hI hcond'.1, le_trans hC hcond'.2.1, le_trans hL hcond'.2.2⟩
        exact ⟨gffLineText gm q, by simp [write_gff_line, h0, hpf, hcond'],
          by simp [write_gff_line, h0, hpf, hcond]⟩
      · right; left
        constructor
        · simp [write_gff_line, h0, hpf, hcond']
        · by_cases hcond : (t.min_perc_identity ≤ (hsps.map (fun p => p.2.perc_id)).sum / (hsps.length : ℚ) ∧
              t.min_perc_coverage ≤ c ∧
              t.min_match_length ≤ |(pyInt gm.match_end : ℤ) - (pyInt gm.match_start : ℤ)|)
          · exact ⟨some (gffLineText gm q), by simp [write_gff_line, h0, hpf, hcond]⟩
          · exact ⟨none, by simp [write_gff_line, h0, hpf, hcond]⟩

lemma driver_loop_mono (recs : List ParsedRecord) (t t' : Thresholds)
    (hI : t.min_perc_identity ≤ t'.min_perc_identity)
    (hC : t.min_perc_coverage ≤ t'.min_perc_coverage)
    (hL : t.min_match_length ≤ t'.min_match_length) :
    (driver_loop recs t').length ≤ (driver_loop recs t).length := by
  induction recs with
  | nil => simp [driver_loop]
  | cons r rs ih =>
    rcases write_gff_cases r.match_ r.hsps r.match_.query_name t t' hI hC hL with
      ⟨e, e', he, he'⟩ | ⟨hn', o, ho⟩ | ⟨l, hl', hl⟩
    · simp [driver_loop, he, he']
    · rcases o with _ | l
      · simp only [driver_loop]
        rw [hn', ho]
        exact ih
      · simp only [driver_loop]
        rw [hn', ho]
        exact le_trans ih (by simp [Nat.le_succ])
    · simp only [driver_loop]
      rw [hl', hl]
      simpa using ih

/-- Claim C7: for a fixed input, raising any of the three thresholds
(here: raising all of them at once, which subsumes raising one while
holding the others fixed) never increases the number of emitted GFF3
lines. -/
theorem c7_threshold_monotone (lines : List (List Char)) (t t' : Thresholds)
    (hI : t.min_perc_identity ≤ t'.min_perc_identity)
    (hC : t.min_perc_coverage ≤ t'.min_perc_coverage)
    (hL : t.min_match_length ≤ t'.min_match_length) :
    (gffLines lines t').length ≤ (gffLines lines t).length :=
  driver_loop_mono (parse_records lines) t t' hI hC hL

/-- Input refuting C1: a block's HSP line fails the pattern, aborting the
block; a later block's gene-cover line then finalizes the abandoned
match. -/
def c1_input : List (List Char) :=
  [START_STR,
   "QGENE|CHR1:100..200|+|gene cover:100(95.0%)|score:50.5|rank:1".toList,
   "HSP_ID[0]:(100-150);query:(1-50); pid: 98.0".toList,
   "HSP_ID[badformat".toList,
   START_STR,
   "Q2|CHR2:5..9|-|gene cover:3(10.0%)|score:1|rank:2".toList]

/-- The match of the aborted block of `c1_input`. -/
def c1_match : GenomicMatchGroups :=
  ⟨"QGENE".toList, "CHR1".toList, "100".toList, "200".toList, "+".toList,
   "100".toList, "95.0".toList, "50.5".toList, "1".toList⟩

/-- Claim C1 is false: after the HSP-pattern failure aborts the first
block, the partially-built match and its HSP mapping are NOT discarded —
the gene-cover line of the NEXT block finalizes and emits them. -/
theorem c1_counterexample :
    parse_records c1_input = [⟨c1_match, [(0, ⟨100, 150, 1, 50, 98⟩)]⟩] := by with_unfolding_all decide

/-- Claim C1 amended: when a block is aborted because a query-name line
does not have exactly 4 fields or an HSP_ID line fails its pattern, the
parser emits nothing at that step and returns to OUTSIDE_BLOCK, but the
per-block state (active GenomicMatch, HSP mapping, query name) is
retained, not discarded, so the in-progress match can still be emitted
once a later block reaches a gene-cover line or end marker. -/
theorem c1_amended_state_retained (st : ParserState) (l : List Char)
    (h : st.in_record = true) :
    (List.isPrefixOf END_STR l = false → List.isPrefixOf QUERY_NAME_STR l = true →
      (pySplit l).length ≠ 4 →
      stepLine st l = .ok ({ st with in_record := false }, [])) ∧
    (List.isPrefixOf END_STR l = false → List.isPrefixOf QUERY_NAME_STR l = false →
      hasSubstr GENE_COVER_STR l = false → List.isPrefixOf HSP_STR l = true →
      HSP_RE (rstrip l) = none →
      stepLine st l = .ok ({ st with in_record := false }, [])) := by
  constructor
  · intro h1 h2 h3
    have h3b : ((pySplit l).length != 4) = true := by simpa using h3
    simp [stepLine, h, h1, h2, h3b]
  · intro h1 h2 h3 h4 h5
    simp [stepLine, h, h1, h2, h3, h4, h5]

/-- Query-name line with 6 whitespace fields (≠ 4): aborts the block. -/
def c1_badquery : List Char := "//for query: a b c d".toList

/-- HSP_ID line failing `HSP_RE`. -/
def c1_badhsp : List Char := "HSP_ID[badformat".toList

/-- A mid-block state with an active match and a non-empty HSP mapping. -/
def c1_st : ParserState :=
  ⟨true, [(0, ⟨100, 150, 1, 50, 98⟩)], some c1_match, "QGENE".toList⟩

theorem c1_amended_witness :
    stepLine c1_st c1_badquery = .ok ({ c1_st with in_record := false }, []) ∧
    stepLine c1_st c1_badhsp = .ok ({ c1_st with in_record := false }, []) :=
  ⟨(c1_amended_state_retained c1_st c1_badquery (by decide)).1
      (by decide) (by decide) (by decide),
   (c1_amended_state_retained c1_st c1_badhsp (by decide)).2
      (by decide) (by decide) (by decide) (by decide) (by decide)⟩

/-- Input refuting C2: a valid gene-cover line followed (after one HSP) by
a malformed gene-cover line in the same block. -/
def c2_input : List (List Char) :=
  [START_STR,
   "QGENE|CHR1:100..200|+|gene cover:100(95.0%)|score:50.5|rank:1".toList,
   "HSP_ID[0]:(100-150);query:(1-50); pid: 98.0".toList,
   "junk gene cover junk".toList,
   END_STR]

/-- The match of the first (valid) gene-cover line of `c2_input`. -/
def c2_match : GenomicMatchGroups :=
  ⟨"QGENE".toList, "CHR1".toList, "100".toList, "200".toList, "+".toList,
   "100".toList, "95.0".toList, "50.5".toList, "1".toList⟩

/-- Claim C2 is false: a block containing a malformed gene-cover line
yields ONE ParsedRecord (for the earlier valid gene-cover line), not
zero. -/
theorem c2_counterexample :
    parse_records c2_input = [⟨c2_match, [(0, ⟨100, 150, 1, 50, 98⟩)]⟩] := by with_unfolding_all decide

/-- Claim C2 amended: when a gene-cover line fails the fixed-format
pattern, the previously active match (if any) has already been finalized
and emitted at that very step, with its accumulated HSP mapping; only the
active-match slot is cleared (and the HSP mapping reset only when a match
was active), no record is emitted for the malformed line itself, and
scanning resumes at the next start marker. -/
theorem c2_amended_previous_match_emitted (st : ParserState) (l : List Char)
    (h : st.in_record = true)
    (h1 : List.isPrefixOf END_STR l = false)
    (h2 : List.isPrefixOf QUERY_NAME_STR l = false)
    (h3 : hasSubstr GENE_COVER_STR l = true)
    (h4 : GENOMIC_MATCH_RE (rstrip l) = none) :
    stepLine st l = .ok
      ({ st with
          in_record := false
          genomic_match := none
          hsp_dict := (match st.genomic_match with | some _ => [] | none => st.hsp_dict) },
       (match st.genomic_match with | some gm => [⟨gm, st.hsp_dict⟩] | none => [])) := by
  rcases hm : st.genomic_match with _ | gm <;> simp [stepLine, h, h1, h2, h3, h4, hm]

/-- Malformed gene-cover line. -/
def c2_badgc : List Char := "junk gene cover junk".toList

/-- A mid-block state with an active match. -/
def c2_st : ParserState :=
  ⟨true, [(0, ⟨100, 150, 1, 50, 98⟩)], some c2_match, "QGENE".toList⟩

theorem c2_amended_witness :
    stepLine c2_st c2_badgc = .ok
      ({ c2_st with
          in_record := false
          genomic_match := none
          hsp_dict := (match c2_st.genomic_match with | some _ => [] | none => c2_st.hsp_dict) },
       (match c2_st.genomic_match with | some gm => [⟨gm, c2_st.hsp_dict⟩] | none => [])) :=
  c2_amended_previous_match_emitted c2_st c2_badgc
    (by decide) (by decide) (by decide) (by decide) (by decide)

/-- Input refuting C3: the tracked query name (3rd field of the
query-name line) is `QX`, while the gene-cover line's query-name prefix
is `QY`. -/
def c3_input : List (List Char) :=
  [START_STR,
   "//for query: QX z".toList,
   "QY|CHR1:100..200|+|gene cover:100(95.0%)|score:50.5|rank:1".toList,
   "HSP_ID[0]:(100-150);query:(1-50); pid: 98.0".toList,
   END_STR]

/-- Claim C3 is false: the emitted ID attribute uses the gene-cover
line's query-name prefix `QY`, not the tracked query name `QX` from the
query-name line. -/
theorem c3_counterexample :
    gffLines c3_input ⟨0, 0, 0⟩ =
      ["CHR1\tBLAST\tmatch\t100\t200\t50.5\t+\t.\tID=QY_1\n".toList] := by with_unfolding_all decide

lemma write_gff_line_some (gm : GenomicMatchGroups) (hsps : List (Nat × Hsp))
    (q : List Char) (th : Thresholds) (x : List Char)
    (hw : write_gff_line gm hsps q th = .ok (some x)) : x = gffLineText gm q := by
  unfold write_gff_line at hw
  by_cases h0 : hsps.length = 0
  · simp [h0] at hw
  · rcases hpf : pyFloat gm.coverage_perc with _ | c
    · rw [hpf] at hw
      simp [h0] at hw
    · rw [hpf] at hw
      simp only [h0, if_false] at hw
      split at hw
      · simp at hw
        exact hw.symm
      · simp at hw

/-- Claim C3 amended: a ParsedRecord carries only the GenomicMatch and
its HSP mapping (it has no query-name field), and every emitted GFF3
line's ID attribute uses the query-name PREFIX captured from the
gene-cover line (`match['match'].group('query_name')` in the driver); the
query name tracked from the query-name lines is recorded by the parser
but never used. -/
theorem c3_amended_id_uses_gene_cover_prefix (recs : List ParsedRecord)
    (th : Thresholds) (l : List Char) (hl : l ∈ driver_loop recs th) :
    ∃ r ∈ recs, l = gffLineText r.match_ r.match_.query_name := by
  induction recs with
  | nil => simp [driver_loop] at hl
  | cons r rs ih =>
    simp only [driver_loop] at hl
    rcases hw : write_gff_line r.match_ r.hsps r.match_.query_name th with e | o
    · rw [hw] at hl
      simp at hl
    · rw [hw] at hl
      rcases o with _ | l0
      · obtain ⟨r1, hr1, he⟩ := ih hl
        exact ⟨r1, by simp [hr1], he⟩
      · rcases List.mem_cons.mp hl with he | hmem
        · exact ⟨r, by simp, he.trans (write_gff_line_some _ _ _ _ _ hw)⟩
        · obtain ⟨r1, hr1, he⟩ := ih hmem
          exact ⟨r1, by simp [hr1], he⟩

/-- A record whose gene-cover prefix is `QY`. -/
def c3_rec : ParsedRecord :=
  ⟨⟨"QY".toList, "CHR1".toList, "100".toList, "200".toList, "+".toList,
    "100".toList, "95.0".toList, "50.5".toList, "1".toList⟩,
   [(0, ⟨100, 150, 1, 50, 98⟩)]⟩

/-- The line the driver emits for `c3_rec`. -/
def c3_line : List Char := gffLineText c3_rec.match_ c3_rec.match_.query_name

theorem c3_amended_witness :
    ∃ r ∈ [c3_rec], c3_line = gffLineText r.match_ r.match_.query_name :=
  c3_amended_id_uses_gene_cover_prefix [c3_rec] ⟨0, 0, 0⟩ c3_line
    (by with_unfolding_all decide)

/-- Input refuting C9: an HSP line whose `pid` field matches `[\d.]+` but
is not a valid Python float literal, so `float(...)` raises inside the
generator. -/
def c9_input : List (List Char) :=
  [START_STR, "HSP_ID[0]:(100-150);query:(1-50); pid: 1.2.3".toList]

/-- Claim C9 is false: `float('1.2.3')` raises ValueError inside
`parse_genblastA` and the exception propagates out of the parser. -/
theorem c9_counterexample :
    (parse_genblastA c9_input).2 =
      Except.error "ValueError: could not convert string to float" := by with_unfolding_all decide

/-- The only exception point of the parser is guarded by this check: an
HSP line whose matched `pid` group is `float`-convertible. -/
def pidSafe (l : List Char) : Bool :=
  match HSP_RE (rstrip l) with
  | none => true
  | some g => (pyFloat g.perc_id).isSome

lemma stepLine_ok_of_pidSafe (st : ParserState) (l : List Char)
    (h : pidSafe l = true) : ∃ r, stepLine st l = .ok r := by
  rcases hx : stepLine st l with e | r
  · exfalso
    unfold stepLine at hx
    repeat' split at hx
    any_goals simp at hx
    unfold pidSafe at h
    split at h <;> simp_all
  · exact ⟨r, rfl⟩

/-- Claim C9 amended: the parser yields a finite sequence of
ParsedRecords without raising, PROVIDED every line whose text matches the
HSP pattern carries a `float`-convertible `pid` field; otherwise (e.g.
`pid: 1.2.3`) a ValueError propagates out of the generator.  All other
malformed lines only cause a logged error and local block abandonment. -/
theorem c9_amended_no_exception (lines : List (List Char))
    (h : ∀ l ∈ lines, pidSafe l = true) :
    ∃ s, (parse_genblastA lines).2 = .ok s := by
  unfold parse_genblastA
  suffices hgen : ∀ st, ∃ s, (runLines st lines).2 = .ok s from hgen initState
  induction lines with
  | nil => exact fun st => ⟨st, rfl⟩
  | cons l ls ih =>
    intro st
    obtain ⟨⟨st1, recs⟩, hs⟩ := stepLine_ok_of_pidSafe st l (h l (by simp))
    obtain ⟨s, hr⟩ := ih (fun x hx => h x (by simp [hx])) st1
    exact ⟨s, by rw [runLines_cons st l ls st1 recs hs]; simpa using hr⟩

/-- A well-behaved input for the amended C9. -/
def c9_good : List (List Char) :=
  [START_STR,
   "QGENE|CHR1:100..200|+|gene cover:100(95.0%)|score:50.5|rank:1".toList,
   "HSP_ID[0]:(100-150);query:(1-50); pid: 98.0".toList,
   END_STR]

theorem c9_amended_witness :
    (∀ l ∈ c9_good, pidSafe l = true) ∧
    ∃ s, (parse_genblastA c9_good).2 = .ok s :=
  ⟨by decide, c9_amended_no_exception c9_good (by decide)⟩

/-- First gene-cover group of the C4 witness block. -/
def c4_g1 : GcGroup :=
  ⟨"QGENE|CHR1:100..200|+|gene cover:100(95.0%)|score:50.5|rank:1".toList,
   ⟨"QGENE".toList, "CHR1".toList, "100".toList, "200".toList, "+".toList,
    "100".toList, "95.0".toList, "50.5".toList, "1".toList⟩,
   [("HSP_ID[0]:(100-150);query:(1-50); pid: 98.0".toList, 0, ⟨100, 150, 1, 50, 98⟩),
    ("HSP_ID[1]:(150-200);query:(51-100); pid: 96.0".toList, 1, ⟨150, 200, 51, 100, 96⟩)]⟩

/-- Second gene-cover group of the C4 witness block. -/
def c4_g2 : GcGroup :=
  ⟨"QGENE|CHR2:300..250|-|gene cover:50(50.0%)|score:-3.5|rank:2".toList,
   ⟨"QGENE".toList, "CHR2".toList, "300".toList, "250".toList, "-".toList,
    "50".toList, "50.0".toList, "-3.5".toList, "2".toList⟩,
   [("HSP_ID[4]:(250-300);query:(1-50); pid: 80.5".toList, 4, ⟨250, 300, 1, 50, 161/2⟩)]⟩

theorem c4_witness :
    (([c4_g1, c4_g2] : List GcGroup) ≠ []) ∧ (∀ g ∈ [c4_g1, c4_g2], g.ok) ∧
    parse_records (START_STR :: [c4_g1, c4_g2].flatMap GcGroup.lines ++ [END_STR]) =
      [c4_g1, c4_g2].map (fun g => ⟨g.gm, g.entries⟩) :=
  ⟨by with_unfolding_all decide, by with_unfolding_all decide,
   c4_records_per_gene_cover [c4_g1, c4_g2] (by with_unfolding_all decide)
     (by with_unfolding_all decide)⟩

/-- Orphan HSP line placed before any gene-cover line (C10 witness). -/
def c10_pre : List (List Char × Nat × Hsp) :=
  [("HSP_ID[7]:(10-20);query:(1-10); pid: 90.0".toList, 7, ⟨10, 20, 1, 10, 90⟩)]

/-- The gene-cover group following the orphan HSPs (C10 witness). -/
def c10_g : GcGroup :=
  ⟨"QGENE|CHR1:100..200|+|gene cover:100(95.0%)|score:50.5|rank:1".toList,
   ⟨"QGENE".toList, "CHR1".toList, "100".toList, "200".toList, "+".toList,
    "100".toList, "95.0".toList, "50.5".toList, "1".toList⟩,
   [("HSP_ID[8]:(20-30);query:(11-20); pid: 91.0".toList, 8, ⟨20, 30, 11, 20, 91⟩)]⟩

theorem c10_witness :
    (∀ t ∈ c10_pre, isHspLineFor t.1 t.2.1 t.2.2) ∧ c10_g.ok ∧
    (parse_records
        (START_STR :: (c10_pre.map (fun t => t.1) ++ (GcGroup.lines c10_g ++ [END_STR]))) =
        [⟨c10_g.gm, c10_pre.map (fun t => (t.2.1, t.2.2)) ++ c10_g.entries⟩] ∧
      parse_genblastA (START_STR :: (c10_pre.map (fun t => t.1) ++ [END_STR])) =
        ([], .ok initState)) :=
  ⟨by with_unfolding_all decide, by with_unfolding_all decide,
   c10_leading_hsps_merge c10_pre c10_g (by with_unfolding_all decide)
     (by with_unfolding_all decide) (by with_unfolding_all decide)
     (by with_unfolding_all decide)⟩

/-- A valid gene-cover line (C6 witness). -/
def c6_line : List Char :=
  "QGENE|CHR1:100..200|+|gene cover:100(95.0%)|score:50.5|rank:1".toList

/-- Its parsed groups (C6 witness). -/
def c6_gm : GenomicMatchGroups :=
  ⟨"QGENE".toList, "CHR1".toList, "100".toList, "200".toList, "+".toList,
   "100".toList, "95.0".toList, "50.5".toList, "1".toList⟩

theorem c6_witness :
    isGcLineFor c6_line c6_gm ∧
    (parse_records [START_STR, c6_line, END_STR] = [⟨c6_gm, []⟩] ∧
      write_gff_line c6_gm [] "QGENE".toList ⟨80, 80, 100⟩ =
        .error "ZeroDivisionError: division by zero") :=
  ⟨by with_unfolding_all decide,
   c6_zero_hsp_block c6_line c6_gm "QGENE".toList ⟨80, 80, 100⟩
     (by with_unfolding_all decide)⟩

/-- An unterminated block: start marker, gene-cover line, one HSP line,
no end marker (C8 witness). -/
def c8_lines : List (List Char) :=
  [START_STR,
   "QGENE|CHR1:100..200|+|gene cover:100(95.0%)|score:50.5|rank:1".toList,
   "HSP_ID[0]:(100-150);query:(1-50); pid: 98.0".toList]

/-- The active match of `c8_lines`. -/
def c8_gm : GenomicMatchGroups :=
  ⟨"QGENE".toList, "CHR1".toList, "100".toList, "200".toList, "+".toList,
   "100".toList, "95.0".toList, "50.5".toList, "1".toList⟩

/-- The parser state after consuming `c8_lines`. -/
def c8_s : ParserState := ⟨true, [(0, ⟨100, 150, 1, 50, 98⟩)], some c8_gm, []⟩

theorem c8_witness :
    (parse_genblastA c8_lines).2 = .ok c8_s ∧ c8_s.in_record = true ∧
    c8_s.genomic_match = some c8_gm ∧
    parse_records (c8_lines ++ [END_STR]) =
      parse_records c8_lines ++ [⟨c8_gm, c8_s.hsp_dict⟩] :=
  ⟨by with_unfolding_all decide, rfl, rfl,
   c8_no_emission_at_eof c8_lines c8_s c8_gm (by with_unfolding_all decide) rfl rfl⟩

/-- A match passing the default thresholds (C5 witness). -/
def c5_gm : GenomicMatchGroups :=
  ⟨"QGENE".toList, "CHR1".toList, "100".toList, "200".toList, "+".toList,
   "100".toList, "95.0".toList, "50.5".toList, "1".toList⟩

/-- Its HSP mapping (C5 witness). -/
def c5_hsps : List (Nat × Hsp) :=
  [(0, ⟨100, 150, 1, 50, 98⟩), (1, ⟨150, 200, 51, 100, 96⟩)]

/-- The default thresholds. -/
def c5_th : Thresholds := ⟨80, 80, 100⟩

theorem c5_witness :
    (c5_hsps ≠ []) ∧ pyFloat c5_gm.coverage_perc = some 95 ∧
    ((write_gff_line c5_gm c5_hsps "QGENE".toList c5_th =
        .ok (some (gffLineText c5_gm "QGENE".toList)) ↔
       (c5_th.min_perc_identity ≤ (c5_hsps.map (fun p => p.2.perc_id)).sum / (c5_hsps.length : ℚ) ∧
        c5_th.min_perc_coverage ≤ 95 ∧
        c5_th.min_match_length ≤ |(pyInt c5_gm.match_end : ℤ) - (pyInt c5_gm.match_start : ℤ)|)) ∧
     (write_gff_line c5_gm c5_hsps "QGENE".toList c5_th = .ok none ↔
       ¬(c5_th.min_perc_identity ≤ (c5_hsps.map (fun p => p.2.perc_id)).sum / (c5_hsps.length : ℚ) ∧
         c5_th.min_perc_coverage ≤ 95 ∧
         c5_th.min_match_length ≤ |(pyInt c5_gm.match_end : ℤ) - (pyInt c5_gm.match_start : ℤ)|))) :=
  ⟨by with_unfolding_all decide, by with_unfolding_all decide,
   c5_emitter_filter c5_gm c5_hsps "QGENE".toList c5_th 95
     (by with_unfolding_all decide) (by with_unfolding_all decide)⟩

/-- A complete one-block input (C7 witness). -/
def c7_input : List (List Char) :=
  [START_STR,
   "QGENE|CHR1:100..200|+|gene cover:100(95.0%)|score:50.5|rank:1".toList,
   "HSP_ID[0]:(100-150);query:(1-50); pid: 98.0".toList,
   "HSP_ID[1]:(150-200);query:(51-100); pid: 96.0".toList,
   END_STR]

theorem c7_witness :
    ((80 : ℚ) ≤ 90) ∧ ((80 : ℚ) ≤ 80) ∧ ((100 : ℤ) ≤ 100) ∧
    (gffLines c7_input ⟨90, 80, 100⟩).length ≤ (gffLines c7_input ⟨80, 80, 100⟩).length :=
  ⟨by norm_num, le_refl _, le_refl _,
   c7_threshold_monotone c7_input ⟨80, 80, 100⟩ ⟨90, 80, 100⟩
     (by norm_num) (le_refl _) (le_refl _)⟩

end GenblastA
